import Mathlib

/-!
Shallow embedding of the presence-and-monitoring core of the TUKTUK server:
the `OnlineStatusManager` service (in-memory online-users map, write-through
to a persistent user store, domain events, stale-connection sweep), the
`SystemMonitor` service (connection metrics, bounded histories, health score)
and the HTTP online-status query route.

JS `Map` objects are modelled as association lists keyed by `String`
(insertion order preserved, unique keys on all reachable states); the Mongo
user collection is modelled the same way.  Persistence failures are injected
through a list of user ids whose store update throws.  Timestamps are `Nat`.
-/

namespace TukTuk

/-- Lookup in an association list: the value at the first matching key. -/
def alGet {α : Type} : List (String × α) → String → Option α
  | [], _ => none
  | (k, v) :: rest, u => if k = u then some v else alGet rest u

/-- JS `Map.set` semantics: overwrite in place if the key exists, else append. -/
def alSet {α : Type} : List (String × α) → String → α → List (String × α)
  | [], k, v => [(k, v)]
  | (k', v') :: rest, k, v =>
    if k' = k then (k, v) :: rest else (k', v') :: alSet rest k v

/-- JS `Map.delete` semantics: remove the entries with the given key. -/
def alErase {α : Type} : List (String × α) → String → List (String × α)
  | [], _ => []
  | (k', v') :: rest, k =>
    if k' = k then alErase rest k else (k', v') :: alErase rest k

/-- JS `Map.has` semantics. -/
def alHas {α : Type} (l : List (String × α)) (k : String) : Bool :=
  (alGet l k).isSome

theorem alGet_alSet_self {α : Type} (l : List (String × α)) (k : String) (v : α) :
    alGet (alSet l k v) k = some v := by
  induction l with
  | nil => simp [alSet, alGet]
  | cons p rest ih =>
    by_cases h : p.1 = k
    · simp [alSet, alGet, h]
    · simp [alSet, alGet, h, ih]

theorem alGet_alSet_ne {α : Type} (l : List (String × α)) (k u : String) (v : α)
    (h : u ≠ k) : alGet (alSet l k v) u = alGet l u := by
  induction l with
  | nil => simp [alSet, alGet, Ne.symm h]
  | cons p rest ih =>
    by_cases hp : p.1 = k
    · have hpu : ¬p.1 = u := by rw [hp]; exact Ne.symm h
      simp [alSet, alGet, hp, Ne.symm h, hpu]
    · by_cases hu : p.1 = u <;> simp [alSet, alGet, hp, hu, ih, h]

theorem alGet_alErase_self {α : Type} (l : List (String × α)) (k : String) :
    alGet (alErase l k) k = none := by
  induction l with
  | nil => simp [alErase, alGet]
  | cons p rest ih =>
    by_cases hp : p.1 = k
    · simpa [alErase, alGet, hp] using ih
    · simp [alErase, alGet, hp, ih]

theorem alGet_alErase_ne {α : Type} (l : List (String × α)) (k u : String)
    (h : u ≠ k) : alGet (alErase l k) u = alGet l u := by
  induction l with
  | nil => simp [alErase, alGet]
  | cons p rest ih =>
    by_cases hp : p.1 = k
    · have hpu : ¬p.1 = u := by rw [hp]; exact Ne.symm h
      simp [alErase, alGet, hp, hpu, ih, Ne.symm h]
    · by_cases hu : p.1 = u <;> simp [alErase, alGet, hp, hu, ih, h]

theorem alGet_eq_none_of_not_mem {α : Type} (l : List (String × α)) (u : String)
    (h : u ∉ l.map Prod.fst) : alGet l u = none := by
  induction l with
  | nil => simp [alGet]
  | cons p rest ih =>
    simp only [List.map_cons, List.mem_cons] at h
    push_neg at h
    simp [alGet, Ne.symm h.1, ih h.2]

/-! ### OnlineStatusManager data model (src/services/OnlineStatusManager.js) -/

/-- One entry of `this.onlineUsers`:
`userId -> { socketId, username, isOnline, lastSeen, connectedAt }`. -/
structure CacheEntry where
  socketId : String
  username : String
  isOnline : Bool
  lastSeen : Nat
  connectedAt : Nat
deriving DecidableEq, Repr

/-- Presence-relevant projection of one persisted `User` document. -/
structure StoreRec where
  username : String
  isOnline : Bool
  lastSeen : Nat
  socketId : Option String
deriving DecidableEq, Repr

/-- The persistent user store (Mongo `User` collection), keyed by `_id`. -/
abbrev Store := List (String × StoreRec)

/-- State of the manager: the in-memory cache plus the persistent store. -/
structure MgrState where
  onlineUsers : List (String × CacheEntry)
  users : Store
deriving DecidableEq, Repr

/-- Events emitted through the manager event surface. -/
inductive Event where
  | userOnline (userId username : String) (lastSeen : Nat) (socketId : String)
  | userOffline (userId username : String) (lastSeen : Nat)
deriving DecidableEq, Repr

/-- `User.findByIdAndUpdate(userId, fields)`: field-wise update of one document.
A missing document is left untouched (no upsert).  The update throws (models
a store outage) exactly when `userId` is in `fail`. -/
def storeUpdate (store : Store) (fail : List String) (userId : String)
    (f : StoreRec → StoreRec) : Except Unit Store :=
  if userId ∈ fail then Except.error ()
  else Except.ok (match alGet store userId with
    | some r => alSet store userId (f r)
    | none => store)

/-- Result value of a successful `userConnected`. -/
structure ConnResult where
  success : Bool
  lastSeen : Nat
  isOnline : Bool
deriving DecidableEq, Repr

/-- `userConnected(userId, socketId, username)`: write-through to the store,
then insert/overwrite the cache entry, then emit `userOnline`.  A store
failure is rethrown with no cache mutation and no event. -/
def userConnected (fail : List String) (now : Nat) (s : MgrState)
    (userId socketId username : String) :
    Except Unit ConnResult × MgrState × List Event :=
  match storeUpdate s.users fail userId
      (fun r => { r with isOnline := true, lastSeen := now, socketId := some socketId }) with
  | Except.error e => (Except.error e, s, [])
  | Except.ok users' =>
    let cache' := alSet s.onlineUsers userId
      { socketId := socketId, username := username, isOnline := true
        lastSeen := now, connectedAt := now }
    (Except.ok { success := true, lastSeen := now, isOnline := true },
      { onlineUsers := cache', users := users' },
      [Event.userOnline userId username now socketId])

/-- `userDisconnected(userId)`: `undefined` (modelled `Except.ok none`) when
the user has no cache entry; otherwise store write-through, cache removal and
a `userOffline` event.  A store failure is rethrown with no cache mutation. -/
def userDisconnected (fail : List String) (now : Nat) (s : MgrState)
    (userId : String) :
    Except Unit (Option ConnResult) × MgrState × List Event :=
  match alGet s.onlineUsers userId with
  | none => (Except.ok none, s, [])
  | some userData =>
    match storeUpdate s.users fail userId
        (fun r => { r with isOnline := false, lastSeen := now, socketId := none }) with
    | Except.error e => (Except.error e, s, [])
    | Except.ok users' =>
      (Except.ok (some { success := true, lastSeen := now, isOnline := false }),
        { onlineUsers := alErase s.onlineUsers userId, users := users' },
        [Event.userOffline userId userData.username now])

/-- `updateUserActivity(userId)`: heartbeat; refreshes `lastSeen` in store and
cache, no-op (`undefined`) when the user has no cache entry. -/
def updateUserActivity (fail : List String) (now : Nat) (s : MgrState)
    (userId : String) :
    Except Unit (Option Nat) × MgrState × List Event :=
  match alGet s.onlineUsers userId with
  | none => (Except.ok none, s, [])
  | some userData =>
    match storeUpdate s.users fail userId (fun r => { r with lastSeen := now }) with
    | Except.error e => (Except.error e, s, [])
    | Except.ok users' =>
      (Except.ok (some now),
        { onlineUsers := alSet s.onlineUsers userId { userData with lastSeen := now },
          users := users' },
        [])

/-- One value of the map returned by `getUsersStatus`. -/
structure StatusEntry where
  username : String
  isOnline : Bool
  lastSeen : Nat
deriving DecidableEq, Repr

/-- Projection of a cache entry placed into a `getUsersStatus` result. -/
def cacheProj (c : CacheEntry) : StatusEntry :=
  { username := c.username, isOnline := c.isOnline, lastSeen := c.lastSeen }

/-- Projection of a store document placed into a `getUsersStatus` result. -/
def storeProj (r : StoreRec) : StatusEntry :=
  { username := r.username, isOnline := r.isOnline, lastSeen := r.lastSeen }

/-- `getUsersStatus(userIds)`: cache first, then one batch store query
(`User.find({_id: {$in: missing}})`) for the ids the cache missed. -/
def getUsersStatus (s : MgrState) (userIds : List String) :
    List (String × StatusEntry) :=
  let fromCache := userIds.foldl
    (fun m uid =>
      match alGet s.onlineUsers uid with
      | some c => alSet m uid (cacheProj c)
      | none => m) []
  let missing := userIds.filter (fun uid => (alGet fromCache uid).isNone)
  let dbUsers := s.users.filter (fun p => decide (p.1 ∈ missing))
  dbUsers.foldl (fun m p => alSet m p.1 (storeProj p.2)) fromCache

/-- Value returned by `getUserStatus`, with JS `null` as `none`. -/
structure UserStatus where
  username : Option String
  isOnline : Bool
  lastSeen : Option Nat
deriving DecidableEq, Repr

/-- `getUserStatus(userId)`: pure cache read with an offline default. -/
def getUserStatus (s : MgrState) (userId : String) : UserStatus :=
  match alGet s.onlineUsers userId with
  | some userData =>
    { username := some userData.username, isOnline := userData.isOnline
      lastSeen := some userData.lastSeen }
  | none => { username := none, isOnline := false, lastSeen := none }

/-- `isUserOnline(userId)`: cached `isOnline`, `false` when absent. -/
def isUserOnline (s : MgrState) (userId : String) : Bool :=
  match alGet s.onlineUsers userId with
  | some userData => userData.isOnline
  | none => false

/-- The ids collected by the first pass of `cleanupStaleConnections`: cache
entries whose `now - lastSeen` exceeds `offlineTimeout`, in map order. -/
def staleUsers (cache : List (String × CacheEntry)) (now timeout : Nat) :
    List String :=
  (cache.filter (fun p => decide ((now : Int) - (p.2.lastSeen : Int) > (timeout : Int)))).map
    Prod.fst

/-- The `for (const userId of staleUsers) await this.userDisconnected(userId)`
loop: no try/catch around the body, so the first rejected disconnect
propagates and the remaining ids are not processed. -/
def cleanupLoop (fail : List String) (now : Nat) :
    List String → MgrState → Except Unit Unit × MgrState × List Event
  | [], s => (Except.ok (), s, [])
  | u :: rest, s =>
    match userDisconnected fail now s u with
    | (Except.error e, s', ev) => (Except.error e, s', ev)
    | (Except.ok _, s', ev) =>
      match cleanupLoop fail now rest s' with
      | (r, s'', evs) => (r, s'', ev ++ evs)

/-- `cleanupStaleConnections()`: select the stale cache entries, then
disconnect each in turn. -/
def cleanupStaleConnections (fail : List String) (now timeout : Nat)
    (s : MgrState) : Except Unit Unit × MgrState × List Event :=
  cleanupLoop fail now (staleUsers s.onlineUsers now timeout) s

/-! ### SystemMonitor (src/services/SystemMonitor.js) -/

/-- JS `array.slice(-k)`: the last `k` elements, except that `slice(-0)`
is `slice(0)`, the whole array. -/
def jsSliceLast {α : Type} (l : List α) (k : Nat) : List α :=
  if k = 0 then l else l.drop (l.length - k)

/-- `addToHistory(type, data)`: push, then truncate with `slice(-historySize)`
once the length exceeds `historySize`. -/
def addToHistory {α : Type} (historySize : Nat) (h : List α) (d : α) : List α :=
  let h' := h ++ [d]
  if historySize < h'.length then jsSliceLast h' historySize else h'

/-- One record of `history.connections`. -/
structure ConnRecord where
  userId : String
  action : String
  timestamp : Nat
  activeConnections : Int
deriving DecidableEq, Repr

/-- The `metrics.connections` counters plus the connections history. -/
structure MonConnState where
  total : Int
  active : Int
  peak : Int
  connHistory : List ConnRecord
deriving DecidableEq, Repr

/-- Constructor values of the connection metrics. -/
def monInit : MonConnState :=
  { total := 0, active := 0, peak := 0, connHistory := [] }

/-- `recordConnection(userId, action)`: bump `total`; increment `active` and
refresh `peak` on connect; decrement `active` with `Math.max(0, ...)` on
disconnect; append a history record. -/
def recordConnection (historySize : Nat) (now : Nat) (st : MonConnState)
    (userId action : String) : MonConnState :=
  let total := st.total + 1
  let active :=
    if action = "connect" then st.active + 1
    else if action = "disconnect" then max 0 (st.active - 1)
    else st.active
  let peak := if action = "connect" ∧ st.peak < active then active else st.peak
  { total := total, active := active, peak := peak
    connHistory := addToHistory historySize st.connHistory
      { userId := userId, action := action, timestamp := now
        activeConnections := active } }

/-- One `recordConnection` invocation as observed by the monitor. -/
structure ConnEvent where
  userId : String
  action : String
  time : Nat
deriving DecidableEq, Repr

/-- Replay a sequence of `recordConnection` calls from a starting state. -/
def replayConnections (historySize : Nat) (evs : List ConnEvent)
    (st : MonConnState) : MonConnState :=
  evs.foldl (fun s e => recordConnection historySize e.time s e.userId e.action) st

/-- The metric counters read by `getHealthStatus`. -/
structure Metrics where
  memoryUsage : Nat
  errorsTotal : Nat
  messagesTotal : Nat
  connectionsActive : Nat
  connectionsTotal : Nat
deriving DecidableEq, Repr

/-- The value built by `getHealthStatus`. -/
structure Health where
  status : String
  score : Int
  issues : List String
deriving DecidableEq, Repr

/-- `getHealthStatus()`: sequential penalty deductions from 100, then the
threshold ladder for the qualitative label.  The JS float comparison
`errors.total / Math.max(messages.total, 1) > 0.01` is modelled exactly
over the rationals. -/
def getHealthStatus (m : Metrics) : Health :=
  let score2 : Int := if 500 < m.memoryUsage then 100 - 20 else 100
  let score3 : Int :=
    if (m.errorsTotal : ℚ) / (max m.messagesTotal 1 : ℚ) > 1 / 100 then
      score2 - 30 else score2
  let score4 : Int :=
    if m.connectionsActive = 0 ∧ 0 < m.connectionsTotal then
      score3 - 10 else score3
  let issues2 : List String :=
    if 500 < m.memoryUsage then ["High memory usage"] else []
  let issues3 : List String :=
    if (m.errorsTotal : ℚ) / (max m.messagesTotal 1 : ℚ) > 1 / 100 then
      issues2 ++ ["High error rate"] else issues2
  let issues4 : List String :=
    if m.connectionsActive = 0 ∧ 0 < m.connectionsTotal then
      issues3 ++ ["No active connections"] else issues3
  let status :=
    if 90 ≤ score4 then "excellent"
    else if 70 ≤ score4 then "good"
    else if 50 ≤ score4 then "warning"
    else "critical"
  { status := status, score := score4, issues := issues4 }

/-! ### HTTP online-status route (src/server.js, GET /api/users/online-status) -/

/-- Responses of the online-status endpoint. -/
inductive ApiResp where
  | clientError (code : Nat) (msg : String)
  | okJson (body : List (String × StatusEntry))
deriving DecidableEq, Repr

/-- Character-list worker for `splitComma`: `acc` holds the current field in
reverse. -/
def splitCommaAux : List Char → List Char → List String
  | [], acc => [String.mk acc.reverse]
  | c :: rest, acc =>
    if c = ',' then String.mk acc.reverse :: splitCommaAux rest []
    else splitCommaAux rest (c :: acc)

/-- JS string split on a comma separator: splits at every comma, keeping
empty fields (so the empty string yields one empty field). -/
def splitComma (q : String) : List String :=
  splitCommaAux q.toList []

/-- The route handler.  The JS guard is falsy-based: a missing parameter and
the empty string both hit the 400 required-parameter branch.  Then more than
50 comma-split ids give the 400 batch-limit error, otherwise the
`getUsersStatus` map is returned as JSON. -/
def onlineStatusRoute (s : MgrState) (userIdsParam : Option String) : ApiResp :=
  match userIdsParam with
  | none => ApiResp.clientError 400 "userIds parameter is required"
  | some q =>
    if q = "" then
      ApiResp.clientError 400 "userIds parameter is required"
    else if (splitComma q).length > 50 then
      ApiResp.clientError 400 "Too many users requested. Maximum 50 users per request."
    else
      ApiResp.okJson (getUsersStatus s (splitComma q))

/-! ### Cache/store consistency invariant -/

/-- No cache entry exists for a store-offline user: whenever the online-users
map has an entry for `u` and the store holds a document for `u`, that
document has `isOnline = true`. -/
def presenceInv (s : MgrState) : Prop :=
  ∀ u r, alHas s.onlineUsers u = true → alGet s.users u = some r →
    r.isOnline = true

theorem storeUpdate_ok_get_ne (store : Store) (fail : List String)
    (k : String) (f : StoreRec → StoreRec) (store' : Store) (u : String)
    (hok : storeUpdate store fail k f = Except.ok store') (hu : u ≠ k) :
    alGet store' u = alGet store u := by
  by_cases hf : k ∈ fail
  · simp [storeUpdate, hf] at hok
  · simp only [storeUpdate, hf, if_false, Except.ok.injEq] at hok
    cases hg : alGet store k with
    | none => rw [hg] at hok; rw [← hok]
    | some r => rw [hg] at hok; rw [← hok]; exact alGet_alSet_ne store k u (f r) hu

theorem storeUpdate_ok_get_self (store : Store) (fail : List String)
    (k : String) (f : StoreRec → StoreRec) (store' : Store)
    (hok : storeUpdate store fail k f = Except.ok store') :
    alGet store' k = (alGet store k).map f := by
  by_cases hf : k ∈ fail
  · simp [storeUpdate, hf] at hok
  · simp only [storeUpdate, hf, if_false, Except.ok.injEq] at hok
    cases hg : alGet store k with
    | none => rw [hg] at hok; rw [← hok, hg]; rfl
    | some r =>
      rw [hg] at hok; rw [← hok]
      rw [alGet_alSet_self store k (f r)]; rfl

/-- C1.  Immediately after any `userConnected` or `userDisconnected` call
completes (successfully or with a store failure), the cache/store consistency
invariant still holds: a user with a cache entry is never store-offline. -/
theorem presenceInv_preserved (fail : List String) (now : Nat) (s : MgrState)
    (userId socketId username : String) (hinv : presenceInv s) :
    presenceInv (userConnected fail now s userId socketId username).2.1 ∧
    presenceInv (userDisconnected fail now s userId).2.1 := by
  constructor
  · cases hsu : storeUpdate s.users fail userId
        (fun r => { r with isOnline := true, lastSeen := now, socketId := some socketId }) with
    | error e => simpa [userConnected, hsu] using hinv
    | ok users' =>
      simp only [userConnected, hsu]
      intro u r hu hr
      dsimp only at hu hr
      by_cases huid : u = userId
      · subst huid
        rw [storeUpdate_ok_get_self s.users fail u _ users' hsu] at hr
        cases hg : alGet s.users u with
        | none => rw [hg] at hr; simp at hr
        | some r0 =>
          rw [hg] at hr
          have hr2 := Option.some.inj hr
          rw [← hr2]
      · simp only [alHas] at hu
        rw [alGet_alSet_ne s.onlineUsers userId u _ huid] at hu
        rw [storeUpdate_ok_get_ne s.users fail userId _ users' u hsu huid] at hr
        exact hinv u r hu hr
  · cases hcd : alGet s.onlineUsers userId with
    | none => simpa [userDisconnected, hcd] using hinv
    | some d =>
      cases hsu : storeUpdate s.users fail userId
          (fun r => { r with isOnline := false, lastSeen := now, socketId := none }) with
      | error e => simpa [userDisconnected, hcd, hsu] using hinv
      | ok users' =>
        simp only [userDisconnected, hcd, hsu]
        intro u r hu hr
        dsimp only at hu hr
        by_cases huid : u = userId
        · subst huid
          simp [alHas, alGet_alErase_self] at hu
        · simp only [alHas] at hu
          rw [alGet_alErase_ne s.onlineUsers userId u huid] at hu
          rw [storeUpdate_ok_get_ne s.users fail userId _ users' u hsu huid] at hr
          exact hinv u r hu hr

/-- A starting state with one store-offline user and an empty cache. -/
def mgrEx0 : MgrState :=
  { onlineUsers := []
    users := [("u1", { username := "alice", isOnline := false, lastSeen := 0
                       socketId := none })] }

theorem presenceInv_mgrEx0 : presenceInv mgrEx0 := by
  intro u r hu _
  simp [mgrEx0, alHas, alGet] at hu

/-- Witness for C1 at a concrete state: the invariant survives a connect and
a disconnect on `mgrEx0`. -/
theorem presenceInv_preserved_witness :
    presenceInv ((userConnected [] 7 mgrEx0 "u1" "s1" "alice").2.1) ∧
    presenceInv ((userDisconnected [] 9 mgrEx0 "u1").2.1) :=
  ⟨(presenceInv_preserved [] 7 mgrEx0 "u1" "s1" "alice" presenceInv_mgrEx0).1,
   (presenceInv_preserved [] 9 mgrEx0 "u1" "s1" "alice" presenceInv_mgrEx0).2⟩

/-- C2.  When the store write inside `userConnected` throws, the error is
propagated to the caller, the whole manager state (in particular the cache)
is unchanged, and no `userOnline` event is emitted. -/
theorem userConnected_store_failure (fail : List String) (now : Nat)
    (s : MgrState) (userId socketId username : String) (h : userId ∈ fail) :
    userConnected fail now s userId socketId username
      = (Except.error (), s, []) := by
  simp [userConnected, storeUpdate, h]

/-- Witness for C2: a failing connect on a concrete state returns the error
and leaves the state intact. -/
theorem userConnected_store_failure_witness :
    userConnected ["u1"] 5 mgrEx0 "u1" "s1" "alice"
      = (Except.error (), mgrEx0, []) :=
  userConnected_store_failure ["u1"] 5 mgrEx0 "u1" "s1" "alice"
    (List.mem_singleton.mpr rfl)

/-- C4.  With the store healthy, `userDisconnected` is idempotent: the second
of two consecutive calls for the same user is a no-op that returns without an
error (the JS `undefined`, modelled `Except.ok none`), leaves the cache and
store exactly as after the first call, and emits no second `userOffline`. -/
theorem userDisconnected_idempotent (now1 now2 : Nat) (s : MgrState)
    (userId : String) :
    userDisconnected [] now2 (userDisconnected [] now1 s userId).2.1 userId
      = (Except.ok none, (userDisconnected [] now1 s userId).2.1, []) := by
  cases hcd : alGet s.onlineUsers userId with
  | none => simp [userDisconnected, hcd]
  | some d =>
    simp [userDisconnected, storeUpdate, hcd, alGet_alErase_self]

/-- C6.  A successful `userConnected(u, s, n)` followed by `getUserStatus(u)`
reports online with the connecting username and the connect-time timestamp. -/
theorem connect_then_getUserStatus (fail : List String) (now : Nat)
    (s : MgrState) (userId socketId username : String) (h : userId ∉ fail) :
    getUserStatus (userConnected fail now s userId socketId username).2.1 userId
      = { username := some username, isOnline := true, lastSeen := some now } := by
  simp [userConnected, storeUpdate, h, getUserStatus, alGet_alSet_self]

/-- Witness for C6 at a concrete state. -/
theorem connect_then_getUserStatus_witness :
    getUserStatus ((userConnected [] 11 mgrEx0 "u1" "s1" "alice").2.1) "u1"
      = { username := some "alice", isOnline := true, lastSeen := some 11 } :=
  connect_then_getUserStatus [] 11 mgrEx0 "u1" "s1" "alice"
    (List.not_mem_nil "u1")

/-! ### Stale-connection sweep and failure isolation -/

/-- A state with two users whose last activity (time 0) is stale by time 100
with a 50-tick timeout; both are cached online and store-online. -/
def staleEx : MgrState :=
  { onlineUsers :=
      [("u1", { socketId := "s1", username := "alice", isOnline := true
                lastSeen := 0, connectedAt := 0 }),
       ("u2", { socketId := "s2", username := "bob", isOnline := true
                lastSeen := 0, connectedAt := 0 })]
    users :=
      [("u1", { username := "alice", isOnline := true, lastSeen := 0
                socketId := some "s1" }),
       ("u2", { username := "bob", isOnline := true, lastSeen := 0
                socketId := some "s2" })] }

/-- Counterexample to C3 as stated: with `u1` and `u2` both stale and the
store failing for `u1`, the sweep leaves `u2` — another stale entry — still
in the cache (it is not disconnected), and in fact changes nothing at all. -/
theorem cleanupStale_no_isolation_cex :
    "u2" ∈ staleUsers staleEx.onlineUsers 100 50 ∧
    (cleanupStaleConnections ["u1"] 100 50 staleEx).2.1 = staleEx ∧
    alHas (cleanupStaleConnections ["u1"] 100 50 staleEx).2.1.onlineUsers "u2"
      = true := by
  refine ⟨by decide, by decide, by decide⟩

/-- C3 amended.  The loop body of `cleanupStaleConnections` has no per-user
try/catch: when the store write fails for the first stale user (still cached
when the sweep reaches it), the whole sweep aborts with that error, the state
is unchanged, and none of the remaining stale users is processed. -/
theorem cleanupStale_aborts_on_failure (fail : List String) (now timeout : Nat)
    (s : MgrState) (u : String) (rest : List String)
    (hl : staleUsers s.onlineUsers now timeout = u :: rest)
    (hc : (alGet s.onlineUsers u).isSome = true) (hf : u ∈ fail) :
    cleanupStaleConnections fail now timeout s = (Except.error (), s, []) := by
  unfold cleanupStaleConnections
  rw [hl]
  obtain ⟨d, hd⟩ := Option.isSome_iff_exists.mp hc
  simp [cleanupLoop, userDisconnected, hd, storeUpdate, hf]

/-- Witness for the amended C3 at the concrete two-stale-users state. -/
theorem cleanupStale_aborts_on_failure_witness :
    cleanupStaleConnections ["u1"] 100 50 staleEx
      = (Except.error (), staleEx, []) :=
  cleanupStale_aborts_on_failure ["u1"] 100 50 staleEx "u1" ["u2"]
    (by decide) (by decide) (by decide)

/-! ### getUsersStatus: cache-first, store-batch, silent misses -/

theorem alGet_filter_none {α : Type} (l : List (String × α))
    (p : String × α → Bool) (u : String) (hg : alGet l u = none) :
    alGet (l.filter p) u = none := by
  induction l with
  | nil => simp [alGet]
  | cons q l ih =>
    by_cases hq : q.1 = u
    · simp [alGet, hq] at hg
    · simp only [alGet, hq, if_false] at hg
      by_cases hp : p q = true
      · simp [List.filter, hp, alGet, hq, ih hg]
      · simp only [Bool.not_eq_true] at hp
        simp [List.filter, hp, ih hg]

theorem alGet_filter_of_mem {α : Type} (l : List (String × α))
    (p : String × α → Bool) (u : String) (r : α)
    (hnd : (l.map Prod.fst).Nodup) (hg : alGet l u = some r) :
    alGet (l.filter p) u = if p (u, r) then some r else none := by
  induction l with
  | nil => simp [alGet] at hg
  | cons q l ih =>
    have hnd' : (l.map Prod.fst).Nodup := (List.nodup_cons.mp hnd).2
    have hqnot : q.1 ∉ l.map Prod.fst := (List.nodup_cons.mp hnd).1
    by_cases hq : q.1 = u
    · simp only [alGet, hq, if_pos rfl] at hg
      have hqr : q = (u, r) := by
        cases hg; exact Prod.ext hq rfl
      have hlnone : alGet l u = none := by
        apply alGet_eq_none_of_not_mem
        rw [← hq]; exact hqnot
      by_cases hp : p q = true
      · rw [hqr] at hp
        simp [List.filter, hqr, hp, alGet]
      · simp only [Bool.not_eq_true] at hp
        rw [hqr] at hp
        simp [List.filter, hqr, hp, alGet_filter_none l p u hlnone]
    · simp only [alGet, hq, if_false] at hg
      by_cases hp : p q = true
      · simp [List.filter, hp, alGet, hq, ih hnd' hg]
      · simp only [Bool.not_eq_true] at hp
        simp [List.filter, hp, ih hnd' hg]

/-- First pass of `getUsersStatus`: lookup after folding the cached ids into
the accumulator. -/
theorem cachePass_alGet (cache : List (String × CacheEntry)) (ids : List String)
    (m : List (String × StatusEntry)) (u : String) :
    alGet (ids.foldl
      (fun m uid =>
        match alGet cache uid with
        | some c => alSet m uid (cacheProj c)
        | none => m) m) u
    = match alGet cache u with
      | some c => if u ∈ ids then some (cacheProj c) else alGet m u
      | none => alGet m u := by
  induction ids generalizing m with
  | nil => cases alGet cache u <;> simp
  | cons a ids ih =>
    simp only [List.foldl_cons]
    rw [ih]
    by_cases hau : a = u
    · subst hau
      cases hg : alGet cache a with
      | none => simp [hg]
      | some c => simp [hg, alGet_alSet_self]
    · have hua : u ≠ a := Ne.symm hau
      cases hg : alGet cache u with
      | none =>
        cases hga : alGet cache a with
        | none => simp [hg]
        | some ca => simp [hg, hga, alGet_alSet_ne _ _ _ _ hua]
      | some c =>
        by_cases hin : u ∈ ids
        · simp [hg, hin, hau]
        · cases hga : alGet cache a with
          | none => simp [hg, hin, hau, hua]
          | some ca =>
            simp [hg, hin, hau, hua, alGet_alSet_ne _ _ _ _ hua]

/-- Second pass of `getUsersStatus`: lookup after folding store documents
with pairwise-distinct ids into the accumulator. -/
theorem storePass_alGet (l : List (String × StoreRec))
    (m : List (String × StatusEntry)) (u : String)
    (hnd : (l.map Prod.fst).Nodup) :
    alGet (l.foldl (fun m p => alSet m p.1 (storeProj p.2)) m) u
    = match alGet l u with
      | some r => some (storeProj r)
      | none => alGet m u := by
  induction l generalizing m with
  | nil => simp [alGet]
  | cons q l ih =>
    have hnd' : (l.map Prod.fst).Nodup := (List.nodup_cons.mp hnd).2
    have hqnot : q.1 ∉ l.map Prod.fst := (List.nodup_cons.mp hnd).1
    simp only [List.foldl_cons]
    rw [ih _ hnd']
    by_cases hqu : q.1 = u
    · have hlnone : alGet l u = none := by
        apply alGet_eq_none_of_not_mem
        rw [← hqu]; exact hqnot
      simp [alGet, hqu, hlnone, alGet_alSet_self]
    · cases hg : alGet l u with
      | none => simp [alGet, hqu, hg, alGet_alSet_ne _ _ _ _ (Ne.symm hqu)]
      | some r => simp [alGet, hqu, hg]

/-- C5.  `getUsersStatus` reports each requested id from the cache when
cached, from the single batch store query when only persisted (store ids
pairwise distinct), and omits ids found in neither source. -/
theorem getUsersStatus_sources (s : MgrState) (userIds : List String)
    (u : String) (hnd : (s.users.map Prod.fst).Nodup) :
    (∀ c, alGet s.onlineUsers u = some c → u ∈ userIds →
        alGet (getUsersStatus s userIds) u = some (cacheProj c)) ∧
    (∀ r, alGet s.onlineUsers u = none → alGet s.users u = some r →
        u ∈ userIds →
        alGet (getUsersStatus s userIds) u = some (storeProj r)) ∧
    (alGet s.onlineUsers u = none → alGet s.users u = none →
        alGet (getUsersStatus s userIds) u = none) := by
  simp only [getUsersStatus]
  set fromCache := userIds.foldl
    (fun m uid =>
      match alGet s.onlineUsers uid with
      | some c => alSet m uid (cacheProj c)
      | none => m) ([] : List (String × StatusEntry)) with hfc
  set missing := userIds.filter (fun uid => (alGet fromCache uid).isNone)
    with hmiss
  have hdbnd : ((s.users.filter (fun p => decide (p.1 ∈ missing))).map
      Prod.fst).Nodup :=
    List.Nodup.sublist ((List.filter_sublist s.users).map Prod.fst) hnd
  refine ⟨?_, ?_, ?_⟩
  · intro c hcache hin
    rw [storePass_alGet _ _ _ hdbnd]
    have hfcu : alGet fromCache u = some (cacheProj c) := by
      rw [hfc, cachePass_alGet, hcache]
      simp [hin]
    have hdb : alGet (s.users.filter (fun p => decide (p.1 ∈ missing))) u
        = none := by
      have humiss : u ∉ missing := by
        rw [hmiss]
        intro hmem
        have := (List.mem_filter.mp hmem).2
        rw [hfcu] at this
        simp at this
      cases hg : alGet s.users u with
      | none => exact alGet_filter_none _ _ _ hg
      | some r =>
        rw [alGet_filter_of_mem _ _ _ _ hnd hg]
        simp [humiss]
    rw [hdb, hfcu]
  · intro r hcache hstore hin
    rw [storePass_alGet _ _ _ hdbnd]
    have hfcu : alGet fromCache u = none := by
      rw [hfc, cachePass_alGet, hcache]
      simp [alGet]
    have humiss : u ∈ missing := by
      rw [hmiss]
      exact List.mem_filter.mpr ⟨hin, by rw [hfcu]; rfl⟩
    have hdb : alGet (s.users.filter (fun p => decide (p.1 ∈ missing))) u
        = some r := by
      rw [alGet_filter_of_mem _ _ _ _ hnd hstore]
      simp [humiss]
    rw [hdb]
  · intro hcache hstore
    rw [storePass_alGet _ _ _ hdbnd]
    have hfcu : alGet fromCache u = none := by
      rw [hfc, cachePass_alGet, hcache]
      simp [alGet]
    have hdb : alGet (s.users.filter (fun p => decide (p.1 ∈ missing))) u
        = none := alGet_filter_none _ _ _ hstore
    rw [hdb, hfcu]

/-- Scenario-D state: `u1` cached online, `u2` only persisted and offline. -/
def statusEx : MgrState :=
  { onlineUsers :=
      [("u1", { socketId := "s1", username := "alice", isOnline := true
                lastSeen := 10, connectedAt := 10 })]
    users :=
      [("u1", { username := "alice", isOnline := true, lastSeen := 10
                socketId := some "s1" }),
       ("u2", { username := "bob", isOnline := false, lastSeen := 42
                socketId := none })] }

/-- Witness for C5 on Scenario D: cached id from the cache, store-only id
offline from the store, unknown id absent. -/
theorem getUsersStatus_sources_witness :
    alGet (getUsersStatus statusEx ["u1", "u2", "zz"]) "u1"
      = some { username := "alice", isOnline := true, lastSeen := 10 } ∧
    alGet (getUsersStatus statusEx ["u1", "u2", "zz"]) "u2"
      = some { username := "bob", isOnline := false, lastSeen := 42 } ∧
    alGet (getUsersStatus statusEx ["u1", "u2", "zz"]) "zz" = none := by
  refine ⟨?_, ?_, ?_⟩
  · exact (getUsersStatus_sources statusEx ["u1", "u2", "zz"] "u1"
      (by decide)).1
      { socketId := "s1", username := "alice", isOnline := true
        lastSeen := 10, connectedAt := 10 }
      (by decide) (by decide)
  · exact (getUsersStatus_sources statusEx ["u1", "u2", "zz"] "u2"
      (by decide)).2.1
      { username := "bob", isOnline := false, lastSeen := 42
        socketId := none }
      (by decide) (by decide) (by decide)
  · exact (getUsersStatus_sources statusEx ["u1", "u2", "zz"] "zz"
      (by decide)).2.2 (by decide) (by decide)

/-! ### Health score and label (spec refinement) -/

/-- The health score exactly as the specification words it: 100, minus 20
when measured memory exceeds the 500 MB threshold, minus 30 when total errors
divided by max(total messages, 1) exceeds 0.01, minus 10 when there are zero
active connections despite a positive connection total. -/
def healthScoreSpec (m : Metrics) : Int :=
  100 - (if 500 < m.memoryUsage then 20 else 0)
      - (if (m.errorsTotal : ℚ) / (max m.messagesTotal 1 : ℚ) > 1 / 100
         then 30 else 0)
      - (if m.connectionsActive = 0 ∧ 0 < m.connectionsTotal then 10 else 0)

/-- The qualitative label ladder exactly as the specification words it. -/
def healthLabelSpec (score : Int) : String :=
  if 90 ≤ score then "excellent"
  else if 70 ≤ score then "good"
  else if 50 ≤ score then "warning"
  else "critical"

/-- C7.  `getHealthStatus` computes exactly the score formula of the
specification and maps it through the label thresholds of the
specification. -/
theorem getHealthStatus_matches_spec (m : Metrics) :
    (getHealthStatus m).score = healthScoreSpec m ∧
    (getHealthStatus m).status = healthLabelSpec (healthScoreSpec m) := by
  simp only [getHealthStatus, healthScoreSpec, healthLabelSpec]
  split_ifs <;>
    refine ⟨by omega, ?_⟩ <;>
    first
    | rfl
    | (exfalso; omega)

/-! ### Bounded history (addToHistory) -/

/-- C8.  For any positive configured cap (the repository configures 1000),
one `addToHistory` step keeps the history length within the cap and only ever
discards a prefix — the oldest entries — of the appended history. -/
theorem addToHistory_bounded {α : Type} (cap : Nat) (h : List α) (d : α)
    (hcap : 1 ≤ cap) :
    (addToHistory cap h d).length ≤ cap ∧
    ∃ k, addToHistory cap h d = (h ++ [d]).drop k := by
  simp only [addToHistory, jsSliceLast]
  split_ifs with h1 h2
  · omega
  · refine ⟨?_, (h ++ [d]).length - cap, rfl⟩
    rw [List.length_drop]
    omega
  · refine ⟨?_, 0, (List.drop_zero _).symm⟩
    omega

/-- Witness for C8 at the configured cap of 1000. -/
theorem addToHistory_bounded_witness :
    (addToHistory 1000 [(7 : Nat)] 8).length ≤ 1000 ∧
    ∃ k, addToHistory 1000 [(7 : Nat)] 8 = ([7] ++ [8]).drop k :=
  addToHistory_bounded 1000 [7] 8 (by omega)

/-! ### Online-status endpoint batch limit -/

theorem onlineStatusRoute_some (s : MgrState) (q : String) :
    onlineStatusRoute s (some q)
      = if q = "" then
          ApiResp.clientError 400 "userIds parameter is required"
        else if (splitComma q).length > 50 then
          ApiResp.clientError 400
            "Too many users requested. Maximum 50 users per request."
        else ApiResp.okJson (getUsersStatus s (splitComma q)) := rfl

/-- C9.  The endpoint answers any request naming more than 50 ids with a 400
client error whose value does not depend on the presence state at all (the
presence subsystem is not consulted), and any request with a non-empty
parameter naming at most 50 ids with the `getUsersStatus` map for exactly
those ids (an empty parameter is caught earlier by the falsy
required-parameter guard). -/
theorem onlineStatusRoute_batch_limit (s s' : MgrState) (q : String) :
    (50 < (splitComma q).length →
      onlineStatusRoute s (some q)
        = ApiResp.clientError 400
            "Too many users requested. Maximum 50 users per request." ∧
      onlineStatusRoute s (some q) = onlineStatusRoute s' (some q)) ∧
    (q ≠ "" → (splitComma q).length ≤ 50 →
      onlineStatusRoute s (some q)
        = ApiResp.okJson (getUsersStatus s (splitComma q))) := by
  have hbig : ∀ (t : MgrState), 50 < (splitComma q).length →
      onlineStatusRoute t (some q)
        = ApiResp.clientError 400
            "Too many users requested. Maximum 50 users per request." := by
    intro t hgt
    have hq : ¬(q = "") := by
      intro h
      rw [h] at hgt
      have hone : (splitComma "").length = 1 := rfl
      omega
    have hgt2 : (splitComma q).length > 50 := hgt
    rw [onlineStatusRoute_some, if_neg hq, if_pos hgt2]
  constructor
  · intro hgt
    exact ⟨hbig s hgt, (hbig s hgt).trans (hbig s' hgt).symm⟩
  · intro hq hle
    have hno : ¬((splitComma q).length > 50) := by omega
    rw [onlineStatusRoute_some, if_neg hq, if_neg hno]

/-- A query string naming 51 ids (50 commas). -/
def query51 : String :=
  "u,u,u,u,u,u,u,u,u,u,u,u,u,u,u,u,u,u,u,u,u,u,u,u,u,u,u,u,u,u,u,u,u,u,u,u,u,u,u,u,u,u,u,u,u,u,u,u,u,u,u"

/-- Witness for C9: a 51-id request is rejected with the 400 error on two
different presence states, and a 2-id request is answered from
`getUsersStatus`. -/
theorem onlineStatusRoute_batch_limit_witness :
    onlineStatusRoute statusEx (some query51)
      = ApiResp.clientError 400
          "Too many users requested. Maximum 50 users per request." ∧
    onlineStatusRoute statusEx (some query51)
      = onlineStatusRoute mgrEx0 (some query51) ∧
    onlineStatusRoute statusEx (some "u1,u2")
      = ApiResp.okJson (getUsersStatus statusEx (splitComma "u1,u2")) := by
  have h51 : 50 < (splitComma query51).length := by decide
  have h2 : (splitComma "u1,u2").length ≤ 50 := by decide
  have hne : "u1,u2" ≠ "" := by decide
  refine ⟨((onlineStatusRoute_batch_limit statusEx mgrEx0 query51).1 h51).1,
    ((onlineStatusRoute_batch_limit statusEx mgrEx0 query51).1 h51).2,
    (onlineStatusRoute_batch_limit statusEx mgrEx0 "u1,u2").2 hne h2⟩

/-! ### Active-connections counter never negative -/

/-- C10.  Replaying any interleaving of connect/disconnect (or other)
`recordConnection` actions from the constructor state keeps the
active-connections counter non-negative, and a disconnect recorded while
`active` is already 0 leaves it at 0 (the decrement is clamped). -/
theorem recordConnection_active_nonneg (historySize : Nat)
    (evs : List ConnEvent) :
    0 ≤ (replayConnections historySize evs monInit).active ∧
    (∀ (st : MonConnState) (userId : String) (now : Nat), st.active = 0 →
      (recordConnection historySize now st userId "disconnect").active = 0) := by
  constructor
  · have step : ∀ (st : MonConnState) (e : ConnEvent), 0 ≤ st.active →
        0 ≤ (recordConnection historySize e.time st e.userId e.action).active := by
      intro st e hst
      simp only [recordConnection]
      split_ifs <;>
      first
      | exact le_max_left 0 _
      | omega
    have general : ∀ (l : List ConnEvent) (st : MonConnState), 0 ≤ st.active →
        0 ≤ (replayConnections historySize l st).active := by
      intro l
      induction l with
      | nil => intro st hst; simpa [replayConnections] using hst
      | cons e l ih =>
        intro st hst
        simpa [replayConnections] using
          ih _ (step st e hst)
    exact general evs monInit (by simp [monInit])
  · intro st userId now hst
    simp [recordConnection, hst]

/-- Witness for C10: a concrete replay with an excess disconnect, and a
clamped disconnect on a zero-active state. -/
theorem recordConnection_active_nonneg_witness :
    0 ≤ (replayConnections 1000
      [{ userId := "a", action := "connect", time := 1 },
       { userId := "a", action := "disconnect", time := 2 },
       { userId := "b", action := "disconnect", time := 3 }] monInit).active ∧
    (recordConnection 1000 9
      { total := 5, active := 0, peak := 2, connHistory := [] }
      "c" "disconnect").active = 0 :=
  ⟨(recordConnection_active_nonneg 1000
      [{ userId := "a", action := "connect", time := 1 },
       { userId := "a", action := "disconnect", time := 2 },
       { userId := "b", action := "disconnect", time := 3 }]).1,
   (recordConnection_active_nonneg 1000 []).2
      { total := 5, active := 0, peak := 2, connHistory := [] } "c" 9 rfl⟩

end TukTuk
